import Mathlib

/-!
Verification of the sndtag RIFF/WAV metadata reader.

The repository contains two generations of the reader:
* the getter generation (`getter.go` with the `wav` type of the draft that
  validates the fmt chunk inline: `NewGetter`, `newWav`, `readFormat`,
  `readFormatLength`, ...), embedded below in namespace `Sndtag.V1`;
* the map generation (`New`/`checkRIFFLastByte` together with the draft
  built on `readChunk`/`readSubchunks`), embedded in namespace `Sndtag.V2`.

Byte sources are modelled as a list of bytes plus a read position, with
`Read`, `io.ReadFull`/`binary.Read`, `io.LimitReader` and
`io.CopyN(ioutil.Discard, ...)` given their Go semantics over an in-memory
(bytes.Reader-like) source.  Machine integers are decoded to `Int` with
explicit two's-complement arithmetic.
-/

namespace Sndtag

/-- Errors produced by the parser.  Each constructor corresponds to one
error construction site in the source: the `io` package sentinels
(`io.EOF`, `io.ErrUnexpectedEOF`) and the `fmt.Errorf` calls, identified by
their format strings. -/
inductive Err where
  /-- The sentinel `io.EOF`. -/
  | ioEOF
  /-- The sentinel `io.ErrUnexpectedEOF` (from `io.ReadFull` inside `binary.Read`). -/
  | unexpectedEOF
  /-- Go: "expected to read %d bytes, actually read %d". -/
  | shortRead (expected got : Nat)
  /-- Go: "unrecognized header: %s". -/
  | unrecognizedHeader (hdr : List Nat)
  /-- Go: "expected RIFF, got %s". -/
  | expectedRIFF (hdr : List Nat)
  /-- Go: "expected chunk ID %s, got %s" and "expected format %s, got %s". -/
  | expectedChunkID (expected got : List Nat)
  /-- Go: "unrecognized chunk ID: %s". -/
  | unrecognizedChunkID (id : List Nat)
  /-- Go: "expected fmt chunk length %d, got %d". -/
  | unsupportedLength (got : Int)
  /-- Go: "expected pcm audio format %d, got %d". -/
  | unsupportedEncoding (got : Int)
  /-- Stands for the result of the absent legacy-tag reader (see `newID3`). -/
  | legacyUnimplemented
  deriving DecidableEq, Repr

/-- A forward-only byte source: the backing bytes and the read position.
This models a `bytes.Reader`-like `io.Reader`. -/
structure Rdr where
  data : List Nat
  pos : Nat
  deriving DecidableEq, Repr

/-- One call to `Read(p)` with `len(p) = n` on a bytes-backed reader:
returns `min n remaining` bytes, and `io.EOF` exactly when no bytes
remain. -/
def goRead (n : Nat) (r : Rdr) : List Nat × Option Err × Rdr :=
  if ((r.data.drop r.pos).take n) = [] then ([], some .ioEOF, r)
  else (((r.data.drop r.pos).take n), none,
        ⟨r.data, r.pos + ((r.data.drop r.pos).take n).length⟩)

/-- `io.ReadFull` of `n` bytes (the read used by `binary.Read` for a
fixed-width value): all `n` bytes, or `io.EOF` when nothing was read, or
`io.ErrUnexpectedEOF` when only part was available. -/
def readFull (n : Nat) (r : Rdr) : Except Err (List Nat) × Rdr :=
  if ((r.data.drop r.pos).take n) = [] then (.error .ioEOF, r)
  else if ((r.data.drop r.pos).take n).length < n then
    (.error .unexpectedEOF, ⟨r.data, r.pos + ((r.data.drop r.pos).take n).length⟩)
  else (.ok ((r.data.drop r.pos).take n), ⟨r.data, r.pos + n⟩)

/-- A byte reduced to its value as a Go `byte`. -/
def byteVal (b : Nat) : Nat := b % 256

/-- Little-endian two's-complement decoding of an `int16`. -/
def decode16 (bs : List Nat) : Int :=
  if byteVal (bs.getD 0 0) + 256 * byteVal (bs.getD 1 0) < 32768 then
    ((byteVal (bs.getD 0 0) + 256 * byteVal (bs.getD 1 0) : Nat) : Int)
  else ((byteVal (bs.getD 0 0) + 256 * byteVal (bs.getD 1 0) : Nat) : Int) - 65536

/-- Little-endian two's-complement decoding of an `int32`. -/
def decode32 (bs : List Nat) : Int :=
  if byteVal (bs.getD 0 0) + 256 * byteVal (bs.getD 1 0) + 65536 * byteVal (bs.getD 2 0)
      + 16777216 * byteVal (bs.getD 3 0) < 2147483648 then
    ((byteVal (bs.getD 0 0) + 256 * byteVal (bs.getD 1 0) + 65536 * byteVal (bs.getD 2 0)
      + 16777216 * byteVal (bs.getD 3 0) : Nat) : Int)
  else
    ((byteVal (bs.getD 0 0) + 256 * byteVal (bs.getD 1 0) + 65536 * byteVal (bs.getD 2 0)
      + 16777216 * byteVal (bs.getD 3 0) : Nat) : Int) - 4294967296

/-- The metadata store, Go's `map[string]string`, as an association list
(keys are unique by construction). -/
abbrev Store := List (String × String)

/-- Map update (`w.store[k] = v`). -/
def storeSet (st : Store) (k v : String) : Store :=
  match st with
  | [] => [(k, v)]
  | (k', v') :: t => if k' = k then (k, v) :: t else (k', v') :: storeSet t k v

/-- Map lookup (`w.store[k]`). -/
def storeGet (st : Store) (k : String) : Option String :=
  match st with
  | [] => none
  | (k', v) :: t => if k' = k then some v else storeGet t k

/-- An `io.LimitReader` over a byte source: the base reader plus the
remaining limit (an `int64` in Go, hence `Int`). -/
structure LRdr where
  base : Rdr
  lim : Int
  deriving DecidableEq, Repr

/-- One call to `Read(p)` with `len(p) = n` on an `io.LimitReader`. -/
def goReadL (n : Nat) (lr : LRdr) : List Nat × Option Err × LRdr :=
  if lr.lim ≤ 0 then ([], some .ioEOF, lr)
  else
    match goRead (min n lr.lim.toNat) lr.base with
    | (bs, e, b') => (bs, e, ⟨b', lr.lim - bs.length⟩)

/-- `io.ReadFull` of `n` bytes through an `io.LimitReader` (the read used
by `binary.Read` inside the fmt-chunk decoder). -/
def readFullL (n : Nat) (lr : LRdr) : Except Err (List Nat) × LRdr :=
  if lr.lim ≤ 0 then (.error .ioEOF, lr)
  else if ((lr.base.data.drop lr.base.pos).take (min n lr.lim.toNat)) = [] then
    (.error .ioEOF, lr)
  else if ((lr.base.data.drop lr.base.pos).take (min n lr.lim.toNat)).length < n then
    (.error .unexpectedEOF,
      ⟨⟨lr.base.data,
        lr.base.pos + ((lr.base.data.drop lr.base.pos).take (min n lr.lim.toNat)).length⟩,
       lr.lim - ((lr.base.data.drop lr.base.pos).take (min n lr.lim.toNat)).length⟩)
  else (.ok ((lr.base.data.drop lr.base.pos).take (min n lr.lim.toNat)),
        ⟨⟨lr.base.data, lr.base.pos + n⟩, lr.lim - n⟩)

/-- `io.CopyN(ioutil.Discard, r, n)`: advance the reader by exactly `n`
bytes; `io.EOF` when fewer are available; a non-positive `n` copies
nothing and reports no error. -/
def copyNDiscard (n : Int) (r : Rdr) : Option Err × Rdr :=
  if n ≤ 0 then (none, r)
  else if ((r.data.drop r.pos).take n.toNat).length < n.toNat then
    (some .ioEOF, ⟨r.data, r.data.length⟩)
  else (none, ⟨r.data, r.pos + n.toNat⟩)

/-- The bytes of "RIFF". -/
def RIFFb : List Nat := [82, 73, 70, 70]

/-- The bytes of "RIF". -/
def RIFb : List Nat := [82, 73, 70]

/-- The bytes of "TAG". -/
def TAGb : List Nat := [84, 65, 71]

/-- The bytes of "WAVE". -/
def WAVEb : List Nat := [87, 65, 86, 69]

/-- The bytes of "fmt ". -/
def FMTb : List Nat := [102, 109, 116, 32]

/-- The bytes of "data". -/
def DATAb : List Nat := [100, 97, 116, 97]

/-- The bytes of "LIST". -/
def LISTb : List Nat := [76, 73, 83, 84]

/-- The bytes of "INFO". -/
def INFOb : List Nat := [73, 78, 70, 79]

/-- Modelled from the spec: `newID3` / `read_legacy_tags`, the legacy-tag
collaborator invoked for the "TAG" magic.  Its implementation is absent
from the sources (marked TODO there), and the spec declares it an external
stub, so it is modelled as failing with a dedicated error and consuming
nothing. -/
def newID3 (r : Rdr) : Except Err Store × Rdr :=
  (.error .legacyUnimplemented, r)

end Sndtag

namespace Sndtag.V2

/-- Go `readFourCC`: read a 4-byte chunk identifier via one `Read` call;
a short read that returned bytes yields the "expected to read 4 bytes"
error. -/
def readFourCC (r : Rdr) : Except Err (List Nat) × Rdr :=
  match goRead 4 r with
  | (_, some e, r') => (.error e, r')
  | (bs, none, r') =>
    if bs.length = 4 then (.ok bs, r') else (.error (.shortRead 4 bs.length), r')

/-- Go `expectFourCC`: read a chunk identifier and compare against an
expected literal. -/
def expectFourCC (r : Rdr) (expected : List Nat) : Except Err Unit × Rdr :=
  match readFourCC r with
  | (.error e, r') => (.error e, r')
  | (.ok id, r') =>
    if expected = id then (.ok (), r') else (.error (.expectedChunkID expected id), r')

/-- Go `readChunk`: read one chunk header, the 4-byte id and the 4-byte
little-endian `int32` length.  The Go function also returns
`data = io.LimitReader(r, int64(length))`; that limit reader is
reconstructed as `⟨r', length⟩` at the call sites. -/
def readChunk (r : Rdr) : Except Err (List Nat × Int) × Rdr :=
  match readFourCC r with
  | (.error e, r') => (.error e, r')
  | (.ok id, r₁) =>
    match readFull 4 r₁ with
    | (.error e, r₂) => (.error e, r₂)
    | (.ok bs, r₂) => (.ok (id, decode32 bs), r₂)

/-- Go `readAudioFormat`: read an `int16` from the fmt-chunk payload,
reject any value other than 1, and only then store "AudioFormat". -/
def readAudioFormat (st : Store) (lr : LRdr) : Option Err × Store × LRdr :=
  match readFullL 2 lr with
  | (.error e, lr') => (some e, st, lr')
  | (.ok bs, lr') =>
    if decode16 bs = 1 then
      (none, storeSet st "AudioFormat" (toString (decode16 bs)), lr')
    else (some (.unsupportedEncoding (decode16 bs)), st, lr')

/-- Go `readInt16`: read an `int16` and store its decimal string under
`prop`. -/
def readInt16 (st : Store) (prop : String) (lr : LRdr) : Option Err × Store × LRdr :=
  match readFullL 2 lr with
  | (.error e, lr') => (some e, st, lr')
  | (.ok bs, lr') => (none, storeSet st prop (toString (decode16 bs)), lr')

/-- Go `readInt32`: read an `int32` and store its decimal string under
`prop`. -/
def readInt32 (st : Store) (prop : String) (lr : LRdr) : Option Err × Store × LRdr :=
  match readFullL 4 lr with
  | (.error e, lr') => (some e, st, lr')
  | (.ok bs, lr') => (none, storeSet st prop (toString (decode32 bs)), lr')

/-- Go `readFormat` of the chunk-based draft: decode the six fmt-chunk
fields, in order, from the length-bounded payload sub-stream. -/
def readFormat (st : Store) (lr : LRdr) : Option Err × Store × LRdr :=
  match readAudioFormat st lr with
  | (some e, st', lr') => (some e, st', lr')
  | (none, st₁, lr₁) =>
    match readInt16 st₁ "NumChannels" lr₁ with
    | (some e, st', lr') => (some e, st', lr')
    | (none, st₂, lr₂) =>
      match readInt32 st₂ "SampleRate" lr₂ with
      | (some e, st', lr') => (some e, st', lr')
      | (none, st₃, lr₃) =>
        match readInt32 st₃ "ByteRate" lr₃ with
        | (some e, st', lr') => (some e, st', lr')
        | (none, st₄, lr₄) =>
          match readInt16 st₄ "BlockAlign" lr₄ with
          | (some e, st', lr') => (some e, st', lr')
          | (none, st₅, lr₅) => readInt16 st₅ "BitRate" lr₅

/-- Go `readFourCC` called on the `LIST` payload limit reader. -/
def readFourCCL (lr : LRdr) : Except Err (List Nat) × LRdr :=
  match goReadL 4 lr with
  | (_, some e, lr') => (.error e, lr')
  | (bs, none, lr') =>
    if bs.length = 4 then (.ok bs, lr') else (.error (.shortRead 4 bs.length), lr')

/-- Go `readList`: `expectFourCC(data, "INFO")` on the LIST payload. -/
def readList (lr : LRdr) : Option Err × LRdr :=
  match readFourCCL lr with
  | (.error e, lr') => (some e, lr')
  | (.ok id, lr') =>
    if INFOb = id then (none, lr') else (some (.expectedChunkID INFOb id), lr')

/-- Go `readInfo`: reads nothing and succeeds. -/
def readInfo (lr : LRdr) : Option Err × LRdr := (none, lr)

/-- Go `readSubchunks`: read one chunk header and dispatch on its id
("fmt ", "data", "LIST", "INFO", otherwise an unrecognized-chunk error).
The function returns after dispatching that single chunk. -/
def readSubchunks (st : Store) (r : Rdr) : Option Err × Store × Rdr :=
  match readChunk r with
  | (.error e, r') => (some e, st, r')
  | (.ok (id, len), r') =>
    if id = FMTb then
      match readFormat st ⟨r', len⟩ with
      | (e, st', lr') => (e, st', lr'.base)
    else if id = DATAb then
      match copyNDiscard len r' with
      | (e, r'') => (e, st, r'')
    else if id = LISTb then
      match readList ⟨r', len⟩ with
      | (e, lr') => (e, st, lr'.base)
    else if id = INFOb then
      match readInfo ⟨r', len⟩ with
      | (e, lr') => (e, st, lr'.base)
    else (some (.unrecognizedChunkID id), st, r')

/-- Go `newWav` of the map generation: read the RIFF length (stored in
`w.length`, never used afterwards), expect the "WAVE" tag, then read the
subchunks and return the metadata map. -/
def newWav (r : Rdr) : Except Err Store × Rdr :=
  match readFull 4 r with
  | (.error e, r') => (.error e, r')
  | (.ok _, r₁) =>
    match expectFourCC r₁ WAVEb with
    | (.error e, r') => (.error e, r')
    | (.ok _, r₂) =>
      match readSubchunks [] r₂ with
      | (some e, _, r') => (.error e, r')
      | (none, st, r') => (.ok st, r')

/-- Go `checkRIFFLastByte`: check that the 4th byte of a RIFF file is 'F'. -/
def checkRIFFLastByte (r : Rdr) (header : List Nat) : Option Err × Rdr :=
  match goRead 1 r with
  | (_, some e, r') => (some e, r')
  | (bs, none, r') =>
    if bs.length ≠ 1 then (some (.shortRead 1 bs.length), r')
    else if bs.getD 0 0 ≠ 70 then (some (.expectedRIFF (header ++ bs)), r')
    else (none, r')

/-- Go `New` (the top-level entry of the map generation): sniff the 3-byte
magic, dispatch to the legacy reader or the WAV reader, and deliberately
tolerate an `io.EOF` from `newWav` (`if err != nil && err != io.EOF`),
returning the (nil) getter with no error in that case.  The result is
`.ok none` for that swallowed-EOF case, `.ok (some st)` for a successful
parse, `.error e` otherwise. -/
def New (r : Rdr) : Except Err (Option Store) × Rdr :=
  match goRead 3 r with
  | (_, some e, r') => (.error e, r')
  | (bs, none, r₁) =>
    if bs.length ≠ 3 then (.error (.shortRead 3 bs.length), r₁)
    else if bs = TAGb then
      match newID3 r₁ with
      | (.error e, r') => (.error e, r')
      | (.ok st, r') => (.ok (some st), r')
    else if bs = RIFb then
      match checkRIFFLastByte r₁ bs with
      | (some e, r') => (.error e, r')
      | (none, r₂) =>
        match newWav r₂ with
        | (.error e, r') => if e = .ioEOF then (.ok none, r') else (.error e, r')
        | (.ok st, r') => (.ok (some st), r')
    else (.error (.unrecognizedHeader bs), r₁)

end Sndtag.V2

namespace Sndtag.V1

/-- Go `readChunkID` (getter generation): read a 4-byte chunk identifier
via one `Read` call. -/
def readChunkID (r : Rdr) : Except Err (List Nat) × Rdr :=
  match goRead 4 r with
  | (_, some e, r') => (.error e, r')
  | (bs, none, r') =>
    if bs.length = 4 then (.ok bs, r') else (.error (.shortRead 4 bs.length), r')

/-- Go `expectChunkID`: read a chunk identifier and compare against an
expected literal. -/
def expectChunkID (r : Rdr) (expected : List Nat) : Except Err Unit × Rdr :=
  match readChunkID r with
  | (.error e, r') => (.error e, r')
  | (.ok id, r') =>
    if expected = id then (.ok (), r') else (.error (.expectedChunkID expected id), r')

/-- Go `readFormatLength`: read the fmt chunk length and reject any value
other than 16. -/
def readFormatLength (r : Rdr) : Option Err × Rdr :=
  match readFull 4 r with
  | (.error e, r') => (some e, r')
  | (.ok bs, r') =>
    if decode32 bs = 16 then (none, r')
    else (some (.unsupportedLength (decode32 bs)), r')

/-- Go `readAudioFormat` (getter generation): read an `int16`, reject any
value other than 1, and only then store "AudioFormat". -/
def readAudioFormat (st : Store) (r : Rdr) : Option Err × Store × Rdr :=
  match readFull 2 r with
  | (.error e, r') => (some e, st, r')
  | (.ok bs, r') =>
    if decode16 bs = 1 then
      (none, storeSet st "AudioFormat" (toString (decode16 bs)), r')
    else (some (.unsupportedEncoding (decode16 bs)), st, r')

/-- Go `readInt16` (getter generation). -/
def readInt16 (st : Store) (prop : String) (r : Rdr) : Option Err × Store × Rdr :=
  match readFull 2 r with
  | (.error e, r') => (some e, st, r')
  | (.ok bs, r') => (none, storeSet st prop (toString (decode16 bs)), r')

/-- Go `readInt32` (getter generation). -/
def readInt32 (st : Store) (prop : String) (r : Rdr) : Option Err × Store × Rdr :=
  match readFull 4 r with
  | (.error e, r') => (some e, st, r')
  | (.ok bs, r') => (none, storeSet st prop (toString (decode32 bs)), r')

/-- Go `readFormat` (getter generation): expect the "fmt " identifier,
validate the declared length, then decode the six fields directly from the
stream. -/
def readFormat (st : Store) (r : Rdr) : Option Err × Store × Rdr :=
  match expectChunkID r FMTb with
  | (.error e, r') => (some e, st, r')
  | (.ok _, r₀) =>
    match readFormatLength r₀ with
    | (some e, r') => (some e, st, r')
    | (none, r₁) =>
      match readAudioFormat st r₁ with
      | (some e, st', r') => (some e, st', r')
      | (none, st₁, r₂) =>
        match readInt16 st₁ "NumChannels" r₂ with
        | (some e, st', r') => (some e, st', r')
        | (none, st₂, r₃) =>
          match readInt32 st₂ "SampleRate" r₃ with
          | (some e, st', r') => (some e, st', r')
          | (none, st₃, r₄) =>
            match readInt32 st₃ "ByteRate" r₄ with
            | (some e, st', r') => (some e, st', r')
            | (none, st₄, r₅) =>
              match readInt16 st₄ "BlockAlign" r₅ with
              | (some e, st', r') => (some e, st', r')
              | (none, st₅, r₆) => readInt16 st₅ "BitRate" r₆

/-- Go `newWav` (getter generation): read the RIFF length, expect the
"WAVE" tag, then read the fmt chunk and return the getter's store. -/
def newWav (r : Rdr) : Except Err Store × Rdr :=
  match readFull 4 r with
  | (.error e, r') => (.error e, r')
  | (.ok _, r₁) =>
    match expectChunkID r₁ WAVEb with
    | (.error e, r') => (.error e, r')
    | (.ok _, r₂) =>
      match readFormat [] r₂ with
      | (some e, _, r') => (.error e, r')
      | (none, st, r') => (.ok st, r')

/-- Go `NewGetter` (getter.go): sniff the 3-byte magic; "TAG" goes to the
legacy reader, "RIF" reads one further byte which must be 'F' before
handing off to `newWav`; anything else is an unrecognized header. -/
def NewGetter (r : Rdr) : Except Err Store × Rdr :=
  match goRead 3 r with
  | (_, some e, r') => (.error e, r')
  | (bs, none, r₁) =>
    if bs.length ≠ 3 then (.error (.shortRead 3 bs.length), r₁)
    else if bs = TAGb then newID3 r₁
    else if bs = RIFb then
      match goRead 1 r₁ with
      | (_, some e, r') => (.error e, r')
      | (bs₂, none, r₂) =>
        if bs₂.length ≠ 1 then (.error (.shortRead 1 bs₂.length), r₂)
        else if bs₂.getD 0 0 ≠ 70 then (.error (.expectedRIFF (bs ++ bs₂)), r₂)
        else newWav r₂
    else (.error (.unrecognizedHeader bs), r₁)

end Sndtag.V1

namespace Sndtag

/-- The fmt-chunk payload of the spec's concrete scenario: encoding 1,
2 channels, sample rate 44100, byte rate 176400, block alignment 4,
bit depth 16, in little-endian layout. -/
def fmtPayload : List Nat := [1, 0, 2, 0, 68, 172, 0, 0, 16, 177, 2, 0, 4, 0, 16, 0]

/-- A complete fmt chunk: identifier, declared length 16, payload. -/
def fmtChunk : List Nat := FMTb ++ [16, 0, 0, 0] ++ fmtPayload

/-- The six-key mapping of the spec's concrete scenario. -/
def sixStore : Store :=
  [("AudioFormat", "1"), ("NumChannels", "2"), ("SampleRate", "44100"),
   ("ByteRate", "176400"), ("BlockAlign", "4"), ("BitRate", "16")]

end Sndtag

open Sndtag


/-- Helper: parsing a container made of "RIFF", arbitrary length bytes,
"WAVE" and the scenario fmt chunk succeeds with the six-key mapping and
leaves every byte after the fmt chunk unread. -/
theorem new_parse_fmt_chunk (l0 l1 l2 l3 : Nat) (rest : List Nat) :
    V2.New ⟨RIFFb ++ [l0, l1, l2, l3] ++ WAVEb ++ fmtChunk ++ rest, 0⟩ =
      (.ok (some sixStore), ⟨RIFFb ++ [l0, l1, l2, l3] ++ WAVEb ++ fmtChunk ++ rest, 36⟩) := by
  set D : List Nat := RIFFb ++ [l0, l1, l2, l3] ++ WAVEb ++ fmtChunk ++ rest with hD
  have f1 : readFullL 2 ⟨⟨D, 20⟩, 16⟩ = (.ok [1, 0], ⟨⟨D, 22⟩, 14⟩) := by rw [hD]; rfl
  have f2 : readFullL 2 ⟨⟨D, 22⟩, 14⟩ = (.ok [2, 0], ⟨⟨D, 24⟩, 12⟩) := by rw [hD]; rfl
  have f3 : readFullL 4 ⟨⟨D, 24⟩, 12⟩ = (.ok [68, 172, 0, 0], ⟨⟨D, 28⟩, 8⟩) := by rw [hD]; rfl
  have f4 : readFullL 4 ⟨⟨D, 28⟩, 8⟩ = (.ok [16, 177, 2, 0], ⟨⟨D, 32⟩, 4⟩) := by rw [hD]; rfl
  have f5 : readFullL 2 ⟨⟨D, 32⟩, 4⟩ = (.ok [4, 0], ⟨⟨D, 34⟩, 2⟩) := by rw [hD]; rfl
  have f6 : readFullL 2 ⟨⟨D, 34⟩, 2⟩ = (.ok [16, 0], ⟨⟨D, 36⟩, 0⟩) := by rw [hD]; rfl
  have g1 : V2.readAudioFormat [] ⟨⟨D, 20⟩, 16⟩ =
      (none, [("AudioFormat", "1")], ⟨⟨D, 22⟩, 14⟩) := by
    unfold V2.readAudioFormat; rw [f1]; with_unfolding_all rfl
  have g2 : V2.readInt16 [("AudioFormat", "1")] "NumChannels" ⟨⟨D, 22⟩, 14⟩ =
      (none, [("AudioFormat", "1"), ("NumChannels", "2")], ⟨⟨D, 24⟩, 12⟩) := by
    unfold V2.readInt16; rw [f2]; with_unfolding_all rfl
  have g3 : V2.readInt32 [("AudioFormat", "1"), ("NumChannels", "2")] "SampleRate" ⟨⟨D, 24⟩, 12⟩ =
      (none, [("AudioFormat", "1"), ("NumChannels", "2"), ("SampleRate", "44100")], ⟨⟨D, 28⟩, 8⟩) := by
    unfold V2.readInt32; rw [f3]; with_unfolding_all rfl
  have g4 : V2.readInt32 [("AudioFormat", "1"), ("NumChannels", "2"), ("SampleRate", "44100")]
      "ByteRate" ⟨⟨D, 28⟩, 8⟩ =
      (none, [("AudioFormat", "1"), ("NumChannels", "2"), ("SampleRate", "44100"), ("ByteRate", "176400")],
        ⟨⟨D, 32⟩, 4⟩) := by
    unfold V2.readInt32; rw [f4]; with_unfolding_all rfl
  have g5 : V2.readInt16 [("AudioFormat", "1"), ("NumChannels", "2"), ("SampleRate", "44100"),
      ("ByteRate", "176400")] "BlockAlign" ⟨⟨D, 32⟩, 4⟩ =
      (none, [("AudioFormat", "1"), ("NumChannels", "2"), ("SampleRate", "44100"), ("ByteRate", "176400"),
        ("BlockAlign", "4")], ⟨⟨D, 34⟩, 2⟩) := by
    unfold V2.readInt16; rw [f5]; with_unfolding_all rfl
  have g6 : V2.readInt16 [("AudioFormat", "1"), ("NumChannels", "2"), ("SampleRate", "44100"),
      ("ByteRate", "176400"), ("BlockAlign", "4")] "BitRate" ⟨⟨D, 34⟩, 2⟩ =
      (none, sixStore, ⟨⟨D, 36⟩, 0⟩) := by
    unfold V2.readInt16; rw [f6]; with_unfolding_all rfl
  have h5 : V2.readFormat [] ⟨⟨D, 20⟩, 16⟩ = (none, sixStore, ⟨⟨D, 36⟩, 0⟩) := by
    unfold V2.readFormat
    rw [g1]; dsimp only
    rw [g2]; dsimp only
    rw [g3]; dsimp only
    rw [g4]; dsimp only
    rw [g5]; dsimp only
    rw [g6]
  have h4 : V2.readChunk ⟨D, 12⟩ = (.ok (FMTb, 16), ⟨D, 20⟩) := by rw [hD]; rfl
  have h3 : V2.readSubchunks [] ⟨D, 12⟩ = (none, sixStore, ⟨D, 36⟩) := by
    unfold V2.readSubchunks
    rw [h4]; dsimp only
    rw [if_pos (rfl : FMTb = FMTb), h5]
  have h1 : readFull 4 ⟨D, 4⟩ = (.ok [l0, l1, l2, l3], ⟨D, 8⟩) := by rw [hD]; rfl
  have h2 : V2.expectFourCC ⟨D, 8⟩ WAVEb = (.ok (), ⟨D, 12⟩) := by rw [hD]; rfl
  have hW : V2.newWav ⟨D, 4⟩ = (.ok sixStore, ⟨D, 36⟩) := by
    unfold V2.newWav
    rw [h1]; dsimp only
    rw [h2]; dsimp only
    rw [h3]
  have s1 : goRead 3 ⟨D, 0⟩ = ([82, 73, 70], none, ⟨D, 3⟩) := by rw [hD]; rfl
  have s2 : V2.checkRIFFLastByte ⟨D, 3⟩ [82, 73, 70] = (none, ⟨D, 4⟩) := by rw [hD]; rfl
  unfold V2.New
  rw [s1]; dsimp only
  rw [if_neg (by decide : ¬(([82, 73, 70] : List Nat).length ≠ 3))]
  rw [if_neg (by decide : ¬(([82, 73, 70] : List Nat) = TAGb))]
  rw [if_pos (by decide : ([82, 73, 70] : List Nat) = RIFb)]
  rw [s2]; dsimp only
  rw [hW]

/-- C1: for every byte stream made of the magic "RIFF", any 4-byte
little-endian length, the tag "WAVE" and a "fmt " chunk of declared length
16 encoding tag 1, channels 2, sample rate 44100, byte rate 176400, block
alignment 4 and bit depth 16, followed by end of stream, `New` succeeds and
returns exactly the six keys AudioFormat="1", NumChannels="2",
SampleRate="44100", ByteRate="176400", BlockAlign="4", BitRate="16", each
value the decimal string of the parsed integer, and no other key. -/
theorem c1_minimal_wav_parse (l0 l1 l2 l3 : Nat) :
    V2.New ⟨RIFFb ++ [l0, l1, l2, l3] ++ WAVEb ++ fmtChunk, 0⟩ =
      (.ok (some sixStore), ⟨RIFFb ++ [l0, l1, l2, l3] ++ WAVEb ++ fmtChunk, 36⟩) := by
  exact new_parse_fmt_chunk l0 l1 l2 l3 []

/-- C2 counterexample: a valid container holding two chunks (a fmt chunk
followed by a "data" chunk of length 2).  The claim says all chunks are
processed until the stream is exhausted; in fact `readSubchunks` is called
once and dispatches only the first chunk, so the parse ends with the read
position at byte 36 of the 46-byte stream, the entire data chunk left
unread. -/
theorem c2_counterexample_second_chunk_unread :
    V2.New ⟨RIFFb ++ [0, 0, 0, 0] ++ WAVEb ++ fmtChunk ++ DATAb ++ [2, 0, 0, 0] ++ [0, 0], 0⟩ =
      (.ok (some sixStore),
        ⟨RIFFb ++ [0, 0, 0, 0] ++ WAVEb ++ fmtChunk ++ DATAb ++ [2, 0, 0, 0] ++ [0, 0], 36⟩) ∧
    (RIFFb ++ [0, 0, 0, 0] ++ WAVEb ++ fmtChunk ++ DATAb ++ [2, 0, 0, 0] ++ [0, 0]).length = 46 := by
  exact ⟨rfl, rfl⟩

/-- Helper: a container whose first chunk is a bulk "data" chunk of any
non-negative declared length with exactly that many payload bytes present
parses to the empty mapping, advancing exactly the declared number of
payload bytes past the chunk header and reading nothing further. -/
theorem new_data_chunk_exact_skip (l0 l1 l2 l3 b0 b1 b2 b3 : Nat) (payload rest : List Nat)
    (hL : 0 ≤ decode32 [b0, b1, b2, b3])
    (hlen : (payload.length : Int) = decode32 [b0, b1, b2, b3]) :
    V2.New ⟨RIFFb ++ [l0, l1, l2, l3] ++ WAVEb ++ DATAb ++ [b0, b1, b2, b3] ++ payload ++ rest, 0⟩ =
      (.ok (some []),
        ⟨RIFFb ++ [l0, l1, l2, l3] ++ WAVEb ++ DATAb ++ [b0, b1, b2, b3] ++ payload ++ rest,
          20 + payload.length⟩) := by
  set D : List Nat :=
    RIFFb ++ [l0, l1, l2, l3] ++ WAVEb ++ DATAb ++ [b0, b1, b2, b3] ++ payload ++ rest with hD
  have htn : (decode32 [b0, b1, b2, b3]).toNat = payload.length := by omega
  have hdrop : D.drop 20 = payload ++ rest := by rw [hD]; rfl
  have hcopy : copyNDiscard (decode32 [b0, b1, b2, b3]) ⟨D, 20⟩ =
      (none, ⟨D, 20 + payload.length⟩) := by
    unfold copyNDiscard
    by_cases h0 : decode32 [b0, b1, b2, b3] ≤ 0
    · rw [if_pos h0]
      have hz : payload.length = 0 := by omega
      rw [hz]
    · rw [if_neg h0, hdrop, htn, List.take_left, if_neg (lt_irrefl payload.length)]
  have h4 : V2.readChunk ⟨D, 12⟩ = (.ok (DATAb, decode32 [b0, b1, b2, b3]), ⟨D, 20⟩) := by
    rw [hD]; rfl
  have h3 : V2.readSubchunks [] ⟨D, 12⟩ = (none, [], ⟨D, 20 + payload.length⟩) := by
    unfold V2.readSubchunks
    rw [h4]; dsimp only
    rw [if_neg (by decide : ¬(DATAb = FMTb))]
    rw [if_pos (rfl : DATAb = DATAb)]
    rw [hcopy]
  have h1 : readFull 4 ⟨D, 4⟩ = (.ok [l0, l1, l2, l3], ⟨D, 8⟩) := by rw [hD]; rfl
  have h2 : V2.expectFourCC ⟨D, 8⟩ WAVEb = (.ok (), ⟨D, 12⟩) := by rw [hD]; rfl
  have hW : V2.newWav ⟨D, 4⟩ = (.ok [], ⟨D, 20 + payload.length⟩) := by
    unfold V2.newWav
    rw [h1]; dsimp only
    rw [h2]; dsimp only
    rw [h3]
  have s1 : goRead 3 ⟨D, 0⟩ = ([82, 73, 70], none, ⟨D, 3⟩) := by rw [hD]; rfl
  have s2 : V2.checkRIFFLastByte ⟨D, 3⟩ [82, 73, 70] = (none, ⟨D, 4⟩) := by rw [hD]; rfl
  unfold V2.New
  rw [s1]; dsimp only
  rw [if_neg (by decide : ¬(([82, 73, 70] : List Nat).length ≠ 3))]
  rw [if_neg (by decide : ¬(([82, 73, 70] : List Nat) = TAGb))]
  rw [if_pos (by decide : ([82, 73, 70] : List Nat) = RIFb)]
  rw [s2]; dsimp only
  rw [hW]

set_option maxHeartbeats 1000000 in
/-- Helper: a container whose first chunk is a fmt chunk of declared
length 16 with any 16 payload bytes whose encoding tag decodes to 1 parses
to the six-key mapping (values the decimal strings of the decoded fields),
leaving every byte after the chunk unread. -/
theorem new_fmt_chunk_any_payload
    (l0 l1 l2 l3 p0 p1 p2 p3 p4 p5 p6 p7 p8 p9 p10 p11 p12 p13 p14 p15 : Nat)
    (rest : List Nat) (htag : decode16 [p0, p1] = 1) :
    V2.New ⟨RIFFb ++ [l0, l1, l2, l3] ++ WAVEb ++ FMTb ++ [16, 0, 0, 0] ++
        [p0, p1, p2, p3, p4, p5, p6, p7, p8, p9, p10, p11, p12, p13, p14, p15] ++ rest, 0⟩ =
      (.ok (some [("AudioFormat", toString (decode16 [p0, p1])),
                  ("NumChannels", toString (decode16 [p2, p3])),
                  ("SampleRate", toString (decode32 [p4, p5, p6, p7])),
                  ("ByteRate", toString (decode32 [p8, p9, p10, p11])),
                  ("BlockAlign", toString (decode16 [p12, p13])),
                  ("BitRate", toString (decode16 [p14, p15]))]),
        ⟨RIFFb ++ [l0, l1, l2, l3] ++ WAVEb ++ FMTb ++ [16, 0, 0, 0] ++
          [p0, p1, p2, p3, p4, p5, p6, p7, p8, p9, p10, p11, p12, p13, p14, p15] ++ rest, 36⟩) := by
  set D : List Nat := RIFFb ++ [l0, l1, l2, l3] ++ WAVEb ++ FMTb ++ [16, 0, 0, 0] ++
      [p0, p1, p2, p3, p4, p5, p6, p7, p8, p9, p10, p11, p12, p13, p14, p15] ++ rest with hD
  have f1 : readFullL 2 ⟨⟨D, 20⟩, 16⟩ = (.ok [p0, p1], ⟨⟨D, 22⟩, 14⟩) := by rw [hD]; rfl
  have f2 : readFullL 2 ⟨⟨D, 22⟩, 14⟩ = (.ok [p2, p3], ⟨⟨D, 24⟩, 12⟩) := by rw [hD]; rfl
  have f3 : readFullL 4 ⟨⟨D, 24⟩, 12⟩ = (.ok [p4, p5, p6, p7], ⟨⟨D, 28⟩, 8⟩) := by rw [hD]; rfl
  have f4 : readFullL 4 ⟨⟨D, 28⟩, 8⟩ = (.ok [p8, p9, p10, p11], ⟨⟨D, 32⟩, 4⟩) := by rw [hD]; rfl
  have f5 : readFullL 2 ⟨⟨D, 32⟩, 4⟩ = (.ok [p12, p13], ⟨⟨D, 34⟩, 2⟩) := by rw [hD]; rfl
  have f6 : readFullL 2 ⟨⟨D, 34⟩, 2⟩ = (.ok [p14, p15], ⟨⟨D, 36⟩, 0⟩) := by rw [hD]; rfl
  have g1 : V2.readAudioFormat [] ⟨⟨D, 20⟩, 16⟩ =
      (none, [("AudioFormat", toString (decode16 [p0, p1]))], ⟨⟨D, 22⟩, 14⟩) := by
    unfold V2.readAudioFormat
    rw [f1]; dsimp only
    rw [if_pos htag]
    rfl
  have g2 : V2.readInt16 [("AudioFormat", toString (decode16 [p0, p1]))] "NumChannels" ⟨⟨D, 22⟩, 14⟩ =
      (none, [("AudioFormat", toString (decode16 [p0, p1])),
              ("NumChannels", toString (decode16 [p2, p3]))], ⟨⟨D, 24⟩, 12⟩) := by
    unfold V2.readInt16
    rw [f2]
    rfl
  have g3 : V2.readInt32 [("AudioFormat", toString (decode16 [p0, p1])),
      ("NumChannels", toString (decode16 [p2, p3]))] "SampleRate" ⟨⟨D, 24⟩, 12⟩ =
      (none, [("AudioFormat", toString (decode16 [p0, p1])),
              ("NumChannels", toString (decode16 [p2, p3])),
              ("SampleRate", toString (decode32 [p4, p5, p6, p7]))], ⟨⟨D, 28⟩, 8⟩) := by
    unfold V2.readInt32
    rw [f3]
    rfl
  have g4 : V2.readInt32 [("AudioFormat", toString (decode16 [p0, p1])),
      ("NumChannels", toString (decode16 [p2, p3])),
      ("SampleRate", toString (decode32 [p4, p5, p6, p7]))] "ByteRate" ⟨⟨D, 28⟩, 8⟩ =
      (none, [("AudioFormat", toString (decode16 [p0, p1])),
              ("NumChannels", toString (decode16 [p2, p3])),
              ("SampleRate", toString (decode32 [p4, p5, p6, p7])),
              ("ByteRate", toString (decode32 [p8, p9, p10, p11]))], ⟨⟨D, 32⟩, 4⟩) := by
    unfold V2.readInt32
    rw [f4]
    rfl
  have g5 : V2.readInt16 [("AudioFormat", toString (decode16 [p0, p1])),
      ("NumChannels", toString (decode16 [p2, p3])),
      ("SampleRate", toString (decode32 [p4, p5, p6, p7])),
      ("ByteRate", toString (decode32 [p8, p9, p10, p11]))] "BlockAlign" ⟨⟨D, 32⟩, 4⟩ =
      (none, [("AudioFormat", toString (decode16 [p0, p1])),
              ("NumChannels", toString (decode16 [p2, p3])),
              ("SampleRate", toString (decode32 [p4, p5, p6, p7])),
              ("ByteRate", toString (decode32 [p8, p9, p10, p11])),
              ("BlockAlign", toString (decode16 [p12, p13]))], ⟨⟨D, 34⟩, 2⟩) := by
    unfold V2.readInt16
    rw [f5]
    rfl
  have g6 : V2.readInt16 [("AudioFormat", toString (decode16 [p0, p1])),
      ("NumChannels", toString (decode16 [p2, p3])),
      ("SampleRate", toString (decode32 [p4, p5, p6, p7])),
      ("ByteRate", toString (decode32 [p8, p9, p10, p11])),
      ("BlockAlign", toString (decode16 [p12, p13]))] "BitRate" ⟨⟨D, 34⟩, 2⟩ =
      (none, [("AudioFormat", toString (decode16 [p0, p1])),
              ("NumChannels", toString (decode16 [p2, p3])),
              ("SampleRate", toString (decode32 [p4, p5, p6, p7])),
              ("ByteRate", toString (decode32 [p8, p9, p10, p11])),
              ("BlockAlign", toString (decode16 [p12, p13])),
              ("BitRate", toString (decode16 [p14, p15]))], ⟨⟨D, 36⟩, 0⟩) := by
    unfold V2.readInt16
    rw [f6]
    rfl
  have h5 : V2.readFormat [] ⟨⟨D, 20⟩, 16⟩ =
      (none, [("AudioFormat", toString (decode16 [p0, p1])),
              ("NumChannels", toString (decode16 [p2, p3])),
              ("SampleRate", toString (decode32 [p4, p5, p6, p7])),
              ("ByteRate", toString (decode32 [p8, p9, p10, p11])),
              ("BlockAlign", toString (decode16 [p12, p13])),
              ("BitRate", toString (decode16 [p14, p15]))], ⟨⟨D, 36⟩, 0⟩) := by
    unfold V2.readFormat
    rw [g1]; dsimp only
    rw [g2]; dsimp only
    rw [g3]; dsimp only
    rw [g4]; dsimp only
    rw [g5]; dsimp only
    rw [g6]
  have h4 : V2.readChunk ⟨D, 12⟩ = (.ok (FMTb, 16), ⟨D, 20⟩) := by
    have c1 : V2.readFourCC ⟨D, 12⟩ = (.ok FMTb, ⟨D, 16⟩) := by rw [hD]; rfl
    have c2 : readFull 4 ⟨D, 16⟩ = (.ok [16, 0, 0, 0], ⟨D, 20⟩) := by rw [hD]; rfl
    unfold V2.readChunk
    rw [c1]; dsimp only
    rw [c2]
    rfl
  have h3 : V2.readSubchunks [] ⟨D, 12⟩ =
      (none, [("AudioFormat", toString (decode16 [p0, p1])),
              ("NumChannels", toString (decode16 [p2, p3])),
              ("SampleRate", toString (decode32 [p4, p5, p6, p7])),
              ("ByteRate", toString (decode32 [p8, p9, p10, p11])),
              ("BlockAlign", toString (decode16 [p12, p13])),
              ("BitRate", toString (decode16 [p14, p15]))], ⟨D, 36⟩) := by
    unfold V2.readSubchunks
    rw [h4]; dsimp only
    rw [if_pos (rfl : FMTb = FMTb), h5]
  have h1 : readFull 4 ⟨D, 4⟩ = (.ok [l0, l1, l2, l3], ⟨D, 8⟩) := by rw [hD]; rfl
  have h2 : V2.expectFourCC ⟨D, 8⟩ WAVEb = (.ok (), ⟨D, 12⟩) := by rw [hD]; rfl
  have hW : V2.newWav ⟨D, 4⟩ =
      (.ok [("AudioFormat", toString (decode16 [p0, p1])),
            ("NumChannels", toString (decode16 [p2, p3])),
            ("SampleRate", toString (decode32 [p4, p5, p6, p7])),
            ("ByteRate", toString (decode32 [p8, p9, p10, p11])),
            ("BlockAlign", toString (decode16 [p12, p13])),
            ("BitRate", toString (decode16 [p14, p15]))], ⟨D, 36⟩) := by
    unfold V2.newWav
    rw [h1]; dsimp only
    rw [h2]; dsimp only
    rw [h3]
  have s1 : goRead 3 ⟨D, 0⟩ = ([82, 73, 70], none, ⟨D, 3⟩) := by rw [hD]; rfl
  have s2 : V2.checkRIFFLastByte ⟨D, 3⟩ [82, 73, 70] = (none, ⟨D, 4⟩) := by rw [hD]; rfl
  unfold V2.New
  rw [s1]; dsimp only
  rw [if_neg (by decide : ¬(([82, 73, 70] : List Nat).length ≠ 3))]
  rw [if_neg (by decide : ¬(([82, 73, 70] : List Nat) = TAGb))]
  rw [if_pos (by decide : ([82, 73, 70] : List Nat) = RIFb)]
  rw [s2]; dsimp only
  rw [hW]

set_option maxHeartbeats 1000000 in
/-- Helper: a container whose first chunk is an "INFO" chunk of any
declared length parses to the empty mapping with nothing of the payload
read. -/
theorem new_info_chunk_skip (l0 l1 l2 l3 i0 i1 i2 i3 : Nat) (rest : List Nat) :
    V2.New ⟨RIFFb ++ [l0, l1, l2, l3] ++ WAVEb ++ INFOb ++ [i0, i1, i2, i3] ++ rest, 0⟩ =
      (.ok (some []),
        ⟨RIFFb ++ [l0, l1, l2, l3] ++ WAVEb ++ INFOb ++ [i0, i1, i2, i3] ++ rest, 20⟩) := by
  set D : List Nat := RIFFb ++ [l0, l1, l2, l3] ++ WAVEb ++ INFOb ++ [i0, i1, i2, i3] ++ rest with hD
  have h4 : V2.readChunk ⟨D, 12⟩ = (.ok (INFOb, decode32 [i0, i1, i2, i3]), ⟨D, 20⟩) := by
    rw [hD]; rfl
  have h3 : V2.readSubchunks [] ⟨D, 12⟩ = (none, [], ⟨D, 20⟩) := by
    unfold V2.readSubchunks
    rw [h4]; dsimp only
    rw [if_neg (by decide : ¬(INFOb = FMTb))]
    rw [if_neg (by decide : ¬(INFOb = DATAb))]
    rw [if_neg (by decide : ¬(INFOb = LISTb))]
    rw [if_pos (rfl : INFOb = INFOb)]
    rw [show V2.readInfo ⟨⟨D, 20⟩, decode32 [i0, i1, i2, i3]⟩ =
          (none, ⟨⟨D, 20⟩, decode32 [i0, i1, i2, i3]⟩) from rfl]
  have h1 : readFull 4 ⟨D, 4⟩ = (.ok [l0, l1, l2, l3], ⟨D, 8⟩) := by rw [hD]; rfl
  have h2 : V2.expectFourCC ⟨D, 8⟩ WAVEb = (.ok (), ⟨D, 12⟩) := by rw [hD]; rfl
  have hW : V2.newWav ⟨D, 4⟩ = (.ok [], ⟨D, 20⟩) := by
    unfold V2.newWav
    rw [h1]; dsimp only
    rw [h2]; dsimp only
    rw [h3]
  have s1 : goRead 3 ⟨D, 0⟩ = ([82, 73, 70], none, ⟨D, 3⟩) := by rw [hD]; rfl
  have s2 : V2.checkRIFFLastByte ⟨D, 3⟩ [82, 73, 70] = (none, ⟨D, 4⟩) := by rw [hD]; rfl
  unfold V2.New
  rw [s1]; dsimp only
  rw [if_neg (by decide : ¬(([82, 73, 70] : List Nat).length ≠ 3))]
  rw [if_neg (by decide : ¬(([82, 73, 70] : List Nat) = TAGb))]
  rw [if_pos (by decide : ([82, 73, 70] : List Nat) = RIFb)]
  rw [s2]; dsimp only
  rw [hW]

/-- C2 amended: after the container magic, length and format tag are
consumed, the walker reads and dispatches exactly one chunk and then
returns, whatever that chunk is — a fmt chunk with any accepted payload, a
data chunk of any declared length, or an info chunk — leaving every byte
after that chunk unread; and a clean end-of-stream before the first
chunk's header is reported as success with a nil mapping. -/
theorem c2_amended_single_chunk_dispatch :
    (∀ (l0 l1 l2 l3 p0 p1 p2 p3 p4 p5 p6 p7 p8 p9 p10 p11 p12 p13 p14 p15 : Nat)
        (rest : List Nat), decode16 [p0, p1] = 1 →
      V2.New ⟨RIFFb ++ [l0, l1, l2, l3] ++ WAVEb ++ FMTb ++ [16, 0, 0, 0] ++
          [p0, p1, p2, p3, p4, p5, p6, p7, p8, p9, p10, p11, p12, p13, p14, p15] ++ rest, 0⟩ =
        (.ok (some [("AudioFormat", toString (decode16 [p0, p1])),
                    ("NumChannels", toString (decode16 [p2, p3])),
                    ("SampleRate", toString (decode32 [p4, p5, p6, p7])),
                    ("ByteRate", toString (decode32 [p8, p9, p10, p11])),
                    ("BlockAlign", toString (decode16 [p12, p13])),
                    ("BitRate", toString (decode16 [p14, p15]))]),
          ⟨RIFFb ++ [l0, l1, l2, l3] ++ WAVEb ++ FMTb ++ [16, 0, 0, 0] ++
            [p0, p1, p2, p3, p4, p5, p6, p7, p8, p9, p10, p11, p12, p13, p14, p15] ++ rest, 36⟩)) ∧
    (∀ (l0 l1 l2 l3 b0 b1 b2 b3 : Nat) (payload rest : List Nat),
        0 ≤ decode32 [b0, b1, b2, b3] →
        (payload.length : Int) = decode32 [b0, b1, b2, b3] →
      V2.New ⟨RIFFb ++ [l0, l1, l2, l3] ++ WAVEb ++ DATAb ++ [b0, b1, b2, b3] ++
          payload ++ rest, 0⟩ =
        (.ok (some []),
          ⟨RIFFb ++ [l0, l1, l2, l3] ++ WAVEb ++ DATAb ++ [b0, b1, b2, b3] ++ payload ++ rest,
            20 + payload.length⟩)) ∧
    (∀ (l0 l1 l2 l3 i0 i1 i2 i3 : Nat) (rest : List Nat),
      V2.New ⟨RIFFb ++ [l0, l1, l2, l3] ++ WAVEb ++ INFOb ++ [i0, i1, i2, i3] ++ rest, 0⟩ =
        (.ok (some []),
          ⟨RIFFb ++ [l0, l1, l2, l3] ++ WAVEb ++ INFOb ++ [i0, i1, i2, i3] ++ rest, 20⟩)) ∧
    (∀ (l0 l1 l2 l3 : Nat),
      V2.New ⟨RIFFb ++ [l0, l1, l2, l3] ++ WAVEb, 0⟩ =
        (.ok none, ⟨RIFFb ++ [l0, l1, l2, l3] ++ WAVEb, 12⟩)) :=
  ⟨new_fmt_chunk_any_payload, new_data_chunk_exact_skip, new_info_chunk_skip,
   fun _ _ _ _ => rfl⟩

/-- Witness for the amended C2: the fmt conjunct at the scenario payload
with two trailing junk bytes, and the data conjunct at declared length 2. -/
theorem c2_amended_single_chunk_dispatch_witness :
    decode16 [1, 0] = 1 ∧
    V2.New ⟨RIFFb ++ [0, 0, 0, 0] ++ WAVEb ++ FMTb ++ [16, 0, 0, 0] ++
        [1, 0, 2, 0, 68, 172, 0, 0, 16, 177, 2, 0, 4, 0, 16, 0] ++ [9, 9], 0⟩ =
      (.ok (some sixStore),
        ⟨RIFFb ++ [0, 0, 0, 0] ++ WAVEb ++ FMTb ++ [16, 0, 0, 0] ++
          [1, 0, 2, 0, 68, 172, 0, 0, 16, 177, 2, 0, 4, 0, 16, 0] ++ [9, 9], 36⟩) ∧
    (0 : Int) ≤ decode32 [2, 0, 0, 0] ∧ ((([7, 7] : List Nat)).length : Int) = decode32 [2, 0, 0, 0] ∧
    V2.New ⟨RIFFb ++ [0, 0, 0, 0] ++ WAVEb ++ DATAb ++ [2, 0, 0, 0] ++ [7, 7] ++ [], 0⟩ =
      (.ok (some []), ⟨RIFFb ++ [0, 0, 0, 0] ++ WAVEb ++ DATAb ++ [2, 0, 0, 0] ++ [7, 7] ++ [], 22⟩) :=
  ⟨by decide,
   c2_amended_single_chunk_dispatch.1 0 0 0 0 1 0 2 0 68 172 0 0 16 177 2 0 4 0 16 0 [9, 9]
     (by decide),
   by decide, by decide,
   c2_amended_single_chunk_dispatch.2.1 0 0 0 0 2 0 0 0 [7, 7] [] (by decide) (by decide)⟩

/-- C4 counterexample: a container with a "data" chunk of declared length
2 followed by a complete, valid fmt chunk.  The claim says the parser
skips the 2 payload bytes and then successfully processes the following
chunk; in fact the walk stops after the skip: the parse returns an empty
mapping with the read position at byte 22 of the 46-byte stream, the fmt
chunk never decoded. -/
theorem c4_counterexample_no_continuation :
    V2.New ⟨RIFFb ++ [0, 0, 0, 0] ++ WAVEb ++ DATAb ++ [2, 0, 0, 0] ++ [7, 7] ++ fmtChunk, 0⟩ =
      (.ok (some []),
        ⟨RIFFb ++ [0, 0, 0, 0] ++ WAVEb ++ DATAb ++ [2, 0, 0, 0] ++ [7, 7] ++ fmtChunk, 22⟩) ∧
    (RIFFb ++ [0, 0, 0, 0] ++ WAVEb ++ DATAb ++ [2, 0, 0, 0] ++ [7, 7] ++ fmtChunk).length = 46 := by
  exact ⟨rfl, rfl⟩

/-- C5 counterexample: in the chunk-based pipeline (`readSubchunks` and
`readFormat` over the length-bounded payload), a fmt chunk whose declared
length is 20 rather than 16 does not fail at all: the declared length is
only used to bound the payload sub-stream, the six fields are decoded and
the parse succeeds.  The claim that any length other than 16 fails with
the unsupported-length error is therefore false for this pipeline. -/
theorem c5_counterexample_length20_succeeds :
    V2.New ⟨RIFFb ++ [0, 0, 0, 0] ++ WAVEb ++ FMTb ++ [20, 0, 0, 0] ++ fmtPayload ++ [9, 9, 9, 9], 0⟩ =
      (.ok (some sixStore),
        ⟨RIFFb ++ [0, 0, 0, 0] ++ WAVEb ++ FMTb ++ [20, 0, 0, 0] ++ fmtPayload ++ [9, 9, 9, 9], 36⟩) := by
  rfl

/-- C9: the stream ends after exactly 4 of the 8 chunk-header bytes (the
"fmt " identifier is complete, the length field is absent).  The claim
says parsing fails with a truncated-chunk error; instead `binary.Read`
reports `io.EOF`, which `New` swallows (`err != io.EOF`), so the parse
terminates successfully, returning the nil mapping and no error. -/
theorem c9_truncated_header_reported_as_success :
    V2.New ⟨RIFFb ++ [0, 0, 0, 0] ++ WAVEb ++ FMTb, 0⟩ =
      (.ok none, ⟨RIFFb ++ [0, 0, 0, 0] ++ WAVEb ++ FMTb, 16⟩) := by
  rfl

/-- C3 counterexample: a container whose "data" chunk declares 100 payload
bytes while only 3 are available.  The skip fails with `io.EOF`, an
underlying read error, yet `New` swallows it and returns success with the
nil mapping: the error is silently discarded and the caller cannot tell
this truncated stream from a successful parse. -/
theorem c3_counterexample_swallowed_eof :
    V2.New ⟨RIFFb ++ [0, 0, 0, 0] ++ WAVEb ++ DATAb ++ [100, 0, 0, 0] ++ [1, 2, 3], 0⟩ =
      (.ok none, ⟨RIFFb ++ [0, 0, 0, 0] ++ WAVEb ++ DATAb ++ [100, 0, 0, 0] ++ [1, 2, 3], 23⟩) := by
  rfl

/-- C3 amended: `New` propagates every parse failure as a structured
error with no mapping — including an `io.EOF` from the magic-byte reads
themselves, as on an empty stream or a bare "RIF" stream — with one
exception: for a stream whose first four bytes are "RIFF", an `io.EOF`
failure of `newWav` is reported as success with no mapping (`.ok none`),
while every other `newWav` failure propagates and a successful `newWav`
yields its mapping unchanged. -/
theorem c3_amended_eof_is_the_only_swallowed_error :
    (∀ rest : List Nat,
      V2.New ⟨RIFFb ++ rest, 0⟩ =
        (match V2.newWav ⟨RIFFb ++ rest, 4⟩ with
         | (.error e, r') => if e = .ioEOF then (.ok none, r') else (.error e, r')
         | (.ok st, r') => (.ok (some st), r'))) ∧
    V2.New ⟨[], 0⟩ = (.error .ioEOF, ⟨[], 0⟩) ∧
    V2.New ⟨[82, 73, 70], 0⟩ = (.error .ioEOF, ⟨[82, 73, 70], 3⟩) :=
  ⟨fun _ => rfl, rfl, rfl⟩

/-- C4 amended: for a container holding a bulk "data" chunk of any
non-negative declared length L whose L payload bytes are available,
followed by a further valid chunk, the parser advances exactly L payload
bytes past the chunk header and then terminates the walk successfully with
the (empty) mapping; the following chunk is not processed. -/
theorem c4_amended_exact_skip_no_continuation (l0 l1 l2 l3 b0 b1 b2 b3 : Nat)
    (payload rest : List Nat)
    (hL : 0 ≤ decode32 [b0, b1, b2, b3])
    (hlen : (payload.length : Int) = decode32 [b0, b1, b2, b3]) :
    V2.New ⟨RIFFb ++ [l0, l1, l2, l3] ++ WAVEb ++ DATAb ++ [b0, b1, b2, b3] ++
        payload ++ fmtChunk ++ rest, 0⟩ =
      (.ok (some []),
        ⟨RIFFb ++ [l0, l1, l2, l3] ++ WAVEb ++ DATAb ++ [b0, b1, b2, b3] ++
          payload ++ fmtChunk ++ rest, 20 + payload.length⟩) := by
  have h := new_data_chunk_exact_skip l0 l1 l2 l3 b0 b1 b2 b3 payload (fmtChunk ++ rest) hL hlen
  simpa [List.append_assoc] using h

/-- Witness for the amended C4 at declared length 5 with a 5-byte payload
followed by a valid fmt chunk. -/
theorem c4_amended_exact_skip_no_continuation_witness :
    (0 : Int) ≤ decode32 [5, 0, 0, 0] ∧
    ((([7, 7, 7, 7, 7] : List Nat).length : Int)) = decode32 [5, 0, 0, 0] ∧
    V2.New ⟨RIFFb ++ [0, 0, 0, 0] ++ WAVEb ++ DATAb ++ [5, 0, 0, 0] ++
        [7, 7, 7, 7, 7] ++ fmtChunk ++ [], 0⟩ =
      (.ok (some []),
        ⟨RIFFb ++ [0, 0, 0, 0] ++ WAVEb ++ DATAb ++ [5, 0, 0, 0] ++
          [7, 7, 7, 7, 7] ++ fmtChunk ++ [], 25⟩) :=
  ⟨by decide, by decide,
   c4_amended_exact_skip_no_continuation 0 0 0 0 5 0 0 0 [7, 7, 7, 7, 7] []
     (by decide) (by decide)⟩

/-- C5 amended: the getter-generation decoder (`readFormat` with
`readFormatLength`) does reject a fmt chunk whose declared length is not
16: it fails with the unsupported-format-length error right after the
length field, with the store unchanged (no field added); the chunk-based
pipeline, by contrast, never validates the declared length (see the C5
counterexample). -/
theorem c5_amended_getter_decoder_rejects_length (st : Store) (L0 L1 L2 L3 : Nat) (rest : List Nat)
    (h : decode32 [L0, L1, L2, L3] ≠ 16) :
    V1.readFormat st ⟨FMTb ++ [L0, L1, L2, L3] ++ rest, 0⟩ =
      (some (.unsupportedLength (decode32 [L0, L1, L2, L3])), st,
        ⟨FMTb ++ [L0, L1, L2, L3] ++ rest, 8⟩) := by
  set D : List Nat := FMTb ++ [L0, L1, L2, L3] ++ rest with hD
  have e1 : V1.expectChunkID ⟨D, 0⟩ FMTb = (.ok (), ⟨D, 4⟩) := by rw [hD]; rfl
  have e2 : readFull 4 ⟨D, 4⟩ = (.ok [L0, L1, L2, L3], ⟨D, 8⟩) := by rw [hD]; rfl
  have e3 : V1.readFormatLength ⟨D, 4⟩ =
      (some (.unsupportedLength (decode32 [L0, L1, L2, L3])), ⟨D, 8⟩) := by
    unfold V1.readFormatLength
    rw [e2]; dsimp only
    rw [if_neg h]
  unfold V1.readFormat
  rw [e1]; dsimp only
  rw [e3]

/-- Witness for the amended C5 at declared length 20. -/
theorem c5_amended_getter_decoder_rejects_length_witness :
    decode32 [20, 0, 0, 0] ≠ 16 ∧
    V1.readFormat [] ⟨FMTb ++ [20, 0, 0, 0] ++ [], 0⟩ =
      (some (.unsupportedLength (decode32 [20, 0, 0, 0])), [], ⟨FMTb ++ [20, 0, 0, 0] ++ [], 8⟩) :=
  ⟨by decide, c5_amended_getter_decoder_rejects_length [] 20 0 0 0 [] (by decide)⟩

/-- C6: in both generations of the decoder, a fmt chunk whose 16-bit
little-endian encoding tag decodes to anything other than the PCM value 1
makes `readAudioFormat` fail with the unsupported-encoding error carrying
the decoded value, and the store is returned unchanged: the AudioFormat
field is not added. -/
theorem c6_unsupported_encoding_rejected :
    (∀ (st : Store) (lim : Int) (b0 b1 : Nat) (rest : List Nat), 2 ≤ lim →
      decode16 [b0, b1] ≠ 1 →
      V2.readAudioFormat st ⟨⟨b0 :: b1 :: rest, 0⟩, lim⟩ =
        (some (.unsupportedEncoding (decode16 [b0, b1])), st, ⟨⟨b0 :: b1 :: rest, 2⟩, lim - 2⟩)) ∧
    (∀ (st : Store) (b0 b1 : Nat) (rest : List Nat),
      decode16 [b0, b1] ≠ 1 →
      V1.readAudioFormat st ⟨b0 :: b1 :: rest, 0⟩ =
        (some (.unsupportedEncoding (decode16 [b0, b1])), st, ⟨b0 :: b1 :: rest, 2⟩)) := by
  constructor
  · intro st lim b0 b1 rest hlim h
    have hmin : min 2 lim.toNat = 2 := by omega
    have hfull : readFullL 2 ⟨⟨b0 :: b1 :: rest, 0⟩, lim⟩ =
        (.ok [b0, b1], ⟨⟨b0 :: b1 :: rest, 2⟩, lim - 2⟩) := by
      unfold readFullL
      rw [if_neg (by omega : ¬(lim ≤ 0))]
      dsimp only
      rw [hmin]
      rw [show List.take 2 (List.drop 0 (b0 :: b1 :: rest)) = [b0, b1] from rfl]
      rw [if_neg (by simp : ¬(([b0, b1] : List Nat) = []))]
      rw [if_neg (by simp : ¬(([b0, b1] : List Nat).length < 2))]
      rfl
    unfold V2.readAudioFormat
    rw [hfull]; dsimp only
    rw [if_neg h]
  · intro st b0 b1 rest h
    have hfull : readFull 2 ⟨b0 :: b1 :: rest, 0⟩ = (.ok [b0, b1], ⟨b0 :: b1 :: rest, 2⟩) := by
      unfold readFull
      dsimp only
      rw [show List.take 2 (List.drop 0 (b0 :: b1 :: rest)) = [b0, b1] from rfl]
      rw [if_neg (by simp : ¬(([b0, b1] : List Nat) = []))]
      rw [if_neg (by simp : ¬(([b0, b1] : List Nat).length < 2))]
    unfold V1.readAudioFormat
    rw [hfull]; dsimp only
    rw [if_neg h]

/-- Witness for C6 at encoding tag 2. -/
theorem c6_unsupported_encoding_rejected_witness :
    (2 : Int) ≤ 16 ∧ decode16 [2, 0] ≠ 1 ∧
    V2.readAudioFormat [] ⟨⟨[2, 0], 0⟩, 16⟩ =
      (some (.unsupportedEncoding (decode16 [2, 0])), [], ⟨⟨[2, 0], 2⟩, 14⟩) ∧
    V1.readAudioFormat [] ⟨[2, 0], 0⟩ =
      (some (.unsupportedEncoding (decode16 [2, 0])), [], ⟨[2, 0], 2⟩) :=
  ⟨by decide, by decide,
   c6_unsupported_encoding_rejected.1 [] 16 2 0 [] (by decide) (by decide),
   c6_unsupported_encoding_rejected.2 [] 2 0 [] (by decide)⟩

/-- C7: in both generations of the sniffer, a stream whose first 3 bytes
are neither "TAG" nor "RIF" fails with the unrecognized-header error
carrying the 3 observed bytes after consuming exactly 3 bytes, and a
stream starting "RIF" whose 4th byte is not 'F' fails with the
expected-RIFF error carrying the 4 observed bytes after consuming exactly
4 bytes; in both cases no more than 4 bytes are consumed. -/
theorem c7_sniff_unrecognized_header :
    (∀ (b0 b1 b2 : Nat) (rest : List Nat), [b0, b1, b2] ≠ TAGb → [b0, b1, b2] ≠ RIFb →
      V2.New ⟨b0 :: b1 :: b2 :: rest, 0⟩ =
        (.error (.unrecognizedHeader [b0, b1, b2]), ⟨b0 :: b1 :: b2 :: rest, 3⟩)) ∧
    (∀ (b : Nat) (rest : List Nat), b ≠ 70 →
      V2.New ⟨82 :: 73 :: 70 :: b :: rest, 0⟩ =
        (.error (.expectedRIFF [82, 73, 70, b]), ⟨82 :: 73 :: 70 :: b :: rest, 4⟩)) ∧
    (∀ (b0 b1 b2 : Nat) (rest : List Nat), [b0, b1, b2] ≠ TAGb → [b0, b1, b2] ≠ RIFb →
      V1.NewGetter ⟨b0 :: b1 :: b2 :: rest, 0⟩ =
        (.error (.unrecognizedHeader [b0, b1, b2]), ⟨b0 :: b1 :: b2 :: rest, 3⟩)) ∧
    (∀ (b : Nat) (rest : List Nat), b ≠ 70 →
      V1.NewGetter ⟨82 :: 73 :: 70 :: b :: rest, 0⟩ =
        (.error (.expectedRIFF [82, 73, 70, b]), ⟨82 :: 73 :: 70 :: b :: rest, 4⟩)) := by
  refine ⟨?_, ?_, ?_, ?_⟩
  · intro b0 b1 b2 rest h1 h2
    have s : goRead 3 ⟨b0 :: b1 :: b2 :: rest, 0⟩ =
        ([b0, b1, b2], none, ⟨b0 :: b1 :: b2 :: rest, 3⟩) := by
      unfold goRead
      dsimp only
      rw [show List.take 3 (List.drop 0 (b0 :: b1 :: b2 :: rest)) = [b0, b1, b2] from rfl]
      rw [if_neg (by simp : ¬(([b0, b1, b2] : List Nat) = []))]
      rfl
    unfold V2.New
    rw [s]; dsimp only
    rw [if_neg (by simp : ¬(([b0, b1, b2] : List Nat).length ≠ 3))]
    rw [if_neg h1, if_neg h2]
  · intro b rest h
    have s : goRead 3 ⟨82 :: 73 :: 70 :: b :: rest, 0⟩ =
        ([82, 73, 70], none, ⟨82 :: 73 :: 70 :: b :: rest, 3⟩) := rfl
    have s2 : V2.checkRIFFLastByte ⟨82 :: 73 :: 70 :: b :: rest, 3⟩ [82, 73, 70] =
        (some (.expectedRIFF [82, 73, 70, b]), ⟨82 :: 73 :: 70 :: b :: rest, 4⟩) := by
      unfold V2.checkRIFFLastByte
      have sg : goRead 1 ⟨82 :: 73 :: 70 :: b :: rest, 3⟩ =
          ([b], none, ⟨82 :: 73 :: 70 :: b :: rest, 4⟩) := by
        unfold goRead
        dsimp only
        rw [show List.take 1 (List.drop 3 (82 :: 73 :: 70 :: b :: rest)) = [b] from rfl]
        rw [if_neg (by simp : ¬(([b] : List Nat) = []))]
        rfl
      rw [sg]; dsimp only
      rw [if_neg (by simp : ¬(([b] : List Nat).length ≠ 1))]
      rw [show ([b] : List Nat).getD 0 0 = b from rfl]
      rw [if_pos h]
      rfl
    unfold V2.New
    rw [s]; dsimp only
    rw [if_neg (by decide : ¬(([82, 73, 70] : List Nat).length ≠ 3))]
    rw [if_neg (by decide : ¬(([82, 73, 70] : List Nat) = TAGb))]
    rw [if_pos (by decide : ([82, 73, 70] : List Nat) = RIFb)]
    rw [s2]
  · intro b0 b1 b2 rest h1 h2
    have s : goRead 3 ⟨b0 :: b1 :: b2 :: rest, 0⟩ =
        ([b0, b1, b2], none, ⟨b0 :: b1 :: b2 :: rest, 3⟩) := by
      unfold goRead
      dsimp only
      rw [show List.take 3 (List.drop 0 (b0 :: b1 :: b2 :: rest)) = [b0, b1, b2] from rfl]
      rw [if_neg (by simp : ¬(([b0, b1, b2] : List Nat) = []))]
      rfl
    unfold V1.NewGetter
    rw [s]; dsimp only
    rw [if_neg (by simp : ¬(([b0, b1, b2] : List Nat).length ≠ 3))]
    rw [if_neg h1, if_neg h2]
  · intro b rest h
    have s : goRead 3 ⟨82 :: 73 :: 70 :: b :: rest, 0⟩ =
        ([82, 73, 70], none, ⟨82 :: 73 :: 70 :: b :: rest, 3⟩) := rfl
    have sg : goRead 1 ⟨82 :: 73 :: 70 :: b :: rest, 3⟩ =
        ([b], none, ⟨82 :: 73 :: 70 :: b :: rest, 4⟩) := by
      unfold goRead
      dsimp only
      rw [show List.take 1 (List.drop 3 (82 :: 73 :: 70 :: b :: rest)) = [b] from rfl]
      rw [if_neg (by simp : ¬(([b] : List Nat) = []))]
      rfl
    unfold V1.NewGetter
    rw [s]; dsimp only
    rw [if_neg (by decide : ¬(([82, 73, 70] : List Nat).length ≠ 3))]
    rw [if_neg (by decide : ¬(([82, 73, 70] : List Nat) = TAGb))]
    rw [if_pos (by decide : ([82, 73, 70] : List Nat) = RIFb)]
    rw [sg]; dsimp only
    rw [if_neg (by simp : ¬(([b] : List Nat).length ≠ 1))]
    rw [show ([b] : List Nat).getD 0 0 = b from rfl]
    rw [if_pos h]
    rfl

/-- Witness for C7 at the headers [1,2,3] and "RIF"+71. -/
theorem c7_sniff_unrecognized_header_witness :
    ([1, 2, 3] : List Nat) ≠ TAGb ∧ ([1, 2, 3] : List Nat) ≠ RIFb ∧ (71 : Nat) ≠ 70 ∧
    V2.New ⟨[1, 2, 3], 0⟩ = (.error (.unrecognizedHeader [1, 2, 3]), ⟨[1, 2, 3], 3⟩) ∧
    V2.New ⟨[82, 73, 70, 71], 0⟩ = (.error (.expectedRIFF [82, 73, 70, 71]), ⟨[82, 73, 70, 71], 4⟩) ∧
    V1.NewGetter ⟨[1, 2, 3], 0⟩ = (.error (.unrecognizedHeader [1, 2, 3]), ⟨[1, 2, 3], 3⟩) ∧
    V1.NewGetter ⟨[82, 73, 70, 71], 0⟩ =
      (.error (.expectedRIFF [82, 73, 70, 71]), ⟨[82, 73, 70, 71], 4⟩) :=
  ⟨by decide, by decide, by decide,
   c7_sniff_unrecognized_header.1 1 2 3 [] (by decide) (by decide),
   c7_sniff_unrecognized_header.2.1 71 [] (by decide),
   c7_sniff_unrecognized_header.2.2.1 1 2 3 [] (by decide) (by decide),
   c7_sniff_unrecognized_header.2.2.2 71 [] (by decide)⟩

/-- C8: in both generations, when the 4-byte container-format tag read
after the outer length is not "WAVE", the walker fails with the
expected-chunk-ID error naming "WAVE" and the observed tag, and no mapping
is returned (the result is an error). -/
theorem c8_wrong_format_tag_rejected :
    (∀ (l0 l1 l2 l3 t0 t1 t2 t3 : Nat) (rest : List Nat), [t0, t1, t2, t3] ≠ WAVEb →
      V2.New ⟨RIFFb ++ [l0, l1, l2, l3] ++ t0 :: t1 :: t2 :: t3 :: rest, 0⟩ =
        (.error (.expectedChunkID WAVEb [t0, t1, t2, t3]),
          ⟨RIFFb ++ [l0, l1, l2, l3] ++ t0 :: t1 :: t2 :: t3 :: rest, 12⟩)) ∧
    (∀ (l0 l1 l2 l3 t0 t1 t2 t3 : Nat) (rest : List Nat), [t0, t1, t2, t3] ≠ WAVEb →
      V1.NewGetter ⟨RIFFb ++ [l0, l1, l2, l3] ++ t0 :: t1 :: t2 :: t3 :: rest, 0⟩ =
        (.error (.expectedChunkID WAVEb [t0, t1, t2, t3]),
          ⟨RIFFb ++ [l0, l1, l2, l3] ++ t0 :: t1 :: t2 :: t3 :: rest, 12⟩)) := by
  constructor
  · intro l0 l1 l2 l3 t0 t1 t2 t3 rest h
    set D : List Nat := RIFFb ++ [l0, l1, l2, l3] ++ t0 :: t1 :: t2 :: t3 :: rest with hD
    have h1 : readFull 4 ⟨D, 4⟩ = (.ok [l0, l1, l2, l3], ⟨D, 8⟩) := by rw [hD]; rfl
    have hF : V2.readFourCC ⟨D, 8⟩ = (.ok [t0, t1, t2, t3], ⟨D, 12⟩) := by
      unfold V2.readFourCC
      have sg : goRead 4 ⟨D, 8⟩ = ([t0, t1, t2, t3], none, ⟨D, 12⟩) := by
        unfold goRead
        rw [hD]
        dsimp only
        rw [show List.take 4 (List.drop 8 (RIFFb ++ [l0, l1, l2, l3] ++ t0 :: t1 :: t2 :: t3 :: rest))
              = [t0, t1, t2, t3] from rfl]
        rw [if_neg (by simp : ¬(([t0, t1, t2, t3] : List Nat) = []))]
        rfl
      rw [sg]; dsimp only
      rw [if_pos (by simp : ([t0, t1, t2, t3] : List Nat).length = 4)]
    have hE : V2.expectFourCC ⟨D, 8⟩ WAVEb =
        (.error (.expectedChunkID WAVEb [t0, t1, t2, t3]), ⟨D, 12⟩) := by
      unfold V2.expectFourCC
      rw [hF]; dsimp only
      rw [if_neg (fun hh => h hh.symm)]
    have hW : V2.newWav ⟨D, 4⟩ =
        (.error (.expectedChunkID WAVEb [t0, t1, t2, t3]), ⟨D, 12⟩) := by
      unfold V2.newWav
      rw [h1]; dsimp only
      rw [hE]
    have s1 : goRead 3 ⟨D, 0⟩ = ([82, 73, 70], none, ⟨D, 3⟩) := by rw [hD]; rfl
    have s2 : V2.checkRIFFLastByte ⟨D, 3⟩ [82, 73, 70] = (none, ⟨D, 4⟩) := by rw [hD]; rfl
    unfold V2.New
    rw [s1]; dsimp only
    rw [if_neg (by decide : ¬(([82, 73, 70] : List Nat).length ≠ 3))]
    rw [if_neg (by decide : ¬(([82, 73, 70] : List Nat) = TAGb))]
    rw [if_pos (by decide : ([82, 73, 70] : List Nat) = RIFb)]
    rw [s2]; dsimp only
    rw [hW]; dsimp only
    rw [if_neg (fun hh => Err.noConfusion hh)]
  · intro l0 l1 l2 l3 t0 t1 t2 t3 rest h
    set D : List Nat := RIFFb ++ [l0, l1, l2, l3] ++ t0 :: t1 :: t2 :: t3 :: rest with hD
    have h1 : readFull 4 ⟨D, 4⟩ = (.ok [l0, l1, l2, l3], ⟨D, 8⟩) := by rw [hD]; rfl
    have hF : V1.readChunkID ⟨D, 8⟩ = (.ok [t0, t1, t2, t3], ⟨D, 12⟩) := by
      unfold V1.readChunkID
      have sg : goRead 4 ⟨D, 8⟩ = ([t0, t1, t2, t3], none, ⟨D, 12⟩) := by
        unfold goRead
        rw [hD]
        dsimp only
        rw [show List.take 4 (List.drop 8 (RIFFb ++ [l0, l1, l2, l3] ++ t0 :: t1 :: t2 :: t3 :: rest))
              = [t0, t1, t2, t3] from rfl]
        rw [if_neg (by simp : ¬(([t0, t1, t2, t3] : List Nat) = []))]
        rfl
      rw [sg]; dsimp only
      rw [if_pos (by simp : ([t0, t1, t2, t3] : List Nat).length = 4)]
    have hE : V1.expectChunkID ⟨D, 8⟩ WAVEb =
        (.error (.expectedChunkID WAVEb [t0, t1, t2, t3]), ⟨D, 12⟩) := by
      unfold V1.expectChunkID
      rw [hF]; dsimp only
      rw [if_neg (fun hh => h hh.symm)]
    have hW : V1.newWav ⟨D, 4⟩ =
        (.error (.expectedChunkID WAVEb [t0, t1, t2, t3]), ⟨D, 12⟩) := by
      unfold V1.newWav
      rw [h1]; dsimp only
      rw [hE]
    have s1 : goRead 3 ⟨D, 0⟩ = ([82, 73, 70], none, ⟨D, 3⟩) := by rw [hD]; rfl
    have sg1 : goRead 1 ⟨D, 3⟩ = ([70], none, ⟨D, 4⟩) := by rw [hD]; rfl
    unfold V1.NewGetter
    rw [s1]; dsimp only
    rw [if_neg (by decide : ¬(([82, 73, 70] : List Nat).length ≠ 3))]
    rw [if_neg (by decide : ¬(([82, 73, 70] : List Nat) = TAGb))]
    rw [if_pos (by decide : ([82, 73, 70] : List Nat) = RIFb)]
    rw [sg1]; dsimp only
    rw [if_neg (by decide : ¬(([70] : List Nat).length ≠ 1))]
    rw [if_neg (by decide : ¬(([70] : List Nat).getD 0 0 ≠ 70))]
    rw [hW]

/-- Witness for C8 at the tag "WAVF". -/
theorem c8_wrong_format_tag_rejected_witness :
    ([87, 65, 86, 70] : List Nat) ≠ WAVEb ∧
    V2.New ⟨RIFFb ++ [0, 0, 0, 0] ++ [87, 65, 86, 70], 0⟩ =
      (.error (.expectedChunkID WAVEb [87, 65, 86, 70]), ⟨RIFFb ++ [0, 0, 0, 0] ++ [87, 65, 86, 70], 12⟩) ∧
    V1.NewGetter ⟨RIFFb ++ [0, 0, 0, 0] ++ [87, 65, 86, 70], 0⟩ =
      (.error (.expectedChunkID WAVEb [87, 65, 86, 70]), ⟨RIFFb ++ [0, 0, 0, 0] ++ [87, 65, 86, 70], 12⟩) :=
  ⟨by decide,
   c8_wrong_format_tag_rejected.1 0 0 0 0 87 65 86 70 [] (by decide),
   c8_wrong_format_tag_rejected.2 0 0 0 0 87 65 86 70 [] (by decide)⟩

/-- The invariant: the AudioFormat key, if present, maps to "1". -/
def AFinv (st : Store) : Prop :=
  storeGet st "AudioFormat" = none ∨ storeGet st "AudioFormat" = some "1"

theorem storeGet_storeSet_self (st : Store) (k v : String) :
    storeGet (storeSet st k v) k = some v := by
  induction st with
  | nil => simp [storeSet, storeGet]
  | cons hd t ih =>
    obtain ⟨k0, v0⟩ := hd
    by_cases hk : k0 = k
    · subst hk
      simp [storeSet, storeGet]
    · simp [storeSet, hk, storeGet, ih]

theorem storeGet_storeSet_ne (st : Store) (k k' v : String) (h : k ≠ k') :
    storeGet (storeSet st k v) k' = storeGet st k' := by
  induction st with
  | nil => simp [storeSet, storeGet, h]
  | cons hd t ih =>
    obtain ⟨k0, v0⟩ := hd
    by_cases hk : k0 = k
    · subst hk
      simp only [storeSet, if_pos rfl, storeGet, if_neg h]
    · simp only [storeSet, if_neg hk, storeGet]
      by_cases h2 : k0 = k'
      · rw [if_pos h2, if_pos h2]
      · rw [if_neg h2, if_neg h2, ih]

theorem AFinv_nil : AFinv [] := Or.inl rfl

theorem AFinv_set_other (st : Store) (p v : String) (hp : p ≠ "AudioFormat")
    (h : AFinv st) : AFinv (storeSet st p v) := by
  unfold AFinv at h ⊢
  rw [storeGet_storeSet_ne st p "AudioFormat" v hp]
  exact h

theorem AFinv_set_one (st : Store) : AFinv (storeSet st "AudioFormat" "1") := by
  unfold AFinv
  rw [storeGet_storeSet_self]
  exact Or.inr rfl

theorem readAudioFormat_AFinv_v2 (st : Store) (lr : LRdr) (e : Option Err) (st' : Store)
    (lr' : LRdr) (h : V2.readAudioFormat st lr = (e, st', lr')) (hst : AFinv st) : AFinv st' := by
  unfold V2.readAudioFormat at h
  rcases hf : readFullL 2 lr with ⟨res, lr1⟩
  rw [hf] at h
  cases res with
  | error err =>
    simp only [Prod.mk.injEq] at h
    obtain ⟨-, h2, -⟩ := h
    rw [← h2]
    exact hst
  | ok bs =>
    dsimp only at h
    split at h
    · rename_i hc
      simp only [Prod.mk.injEq] at h
      obtain ⟨-, h2, -⟩ := h
      rw [← h2, hc]
      rw [show toString ((1 : Int)) = "1" from rfl]
      exact AFinv_set_one st
    · simp only [Prod.mk.injEq] at h
      obtain ⟨-, h2, -⟩ := h
      rw [← h2]
      exact hst

theorem readInt16_AFinv_v2 (st : Store) (p : String) (lr : LRdr) (e : Option Err) (st' : Store)
    (lr' : LRdr) (hp : p ≠ "AudioFormat")
    (h : V2.readInt16 st p lr = (e, st', lr')) (hst : AFinv st) : AFinv st' := by
  unfold V2.readInt16 at h
  rcases hf : readFullL 2 lr with ⟨res, lr1⟩
  rw [hf] at h
  cases res with
  | error err =>
    simp only [Prod.mk.injEq] at h
    obtain ⟨-, h2, -⟩ := h
    rw [← h2]
    exact hst
  | ok bs =>
    simp only [Prod.mk.injEq] at h
    obtain ⟨-, h2, -⟩ := h
    rw [← h2]
    exact AFinv_set_other st p _ hp hst

theorem readInt32_AFinv_v2 (st : Store) (p : String) (lr : LRdr) (e : Option Err) (st' : Store)
    (lr' : LRdr) (hp : p ≠ "AudioFormat")
    (h : V2.readInt32 st p lr = (e, st', lr')) (hst : AFinv st) : AFinv st' := by
  unfold V2.readInt32 at h
  rcases hf : readFullL 4 lr with ⟨res, lr1⟩
  rw [hf] at h
  cases res with
  | error err =>
    simp only [Prod.mk.injEq] at h
    obtain ⟨-, h2, -⟩ := h
    rw [← h2]
    exact hst
  | ok bs =>
    simp only [Prod.mk.injEq] at h
    obtain ⟨-, h2, -⟩ := h
    rw [← h2]
    exact AFinv_set_other st p _ hp hst

theorem readFormat_AFinv_v2 (st : Store) (lr : LRdr) (e : Option Err) (st' : Store)
    (lr' : LRdr) (h : V2.readFormat st lr = (e, st', lr')) (hst : AFinv st) : AFinv st' := by
  unfold V2.readFormat at h
  rcases h1 : V2.readAudioFormat st lr with ⟨e1, st1, lr1⟩
  rw [h1] at h
  have hst1 : AFinv st1 := readAudioFormat_AFinv_v2 st lr e1 st1 lr1 h1 hst
  cases e1 with
  | some err =>
    simp only [Prod.mk.injEq] at h
    obtain ⟨-, h2, -⟩ := h
    rw [← h2]; exact hst1
  | none =>
    dsimp only at h
    rcases h2 : V2.readInt16 st1 "NumChannels" lr1 with ⟨e2, st2, lr2⟩
    rw [h2] at h
    have hst2 : AFinv st2 := readInt16_AFinv_v2 st1 _ lr1 e2 st2 lr2 (by decide) h2 hst1
    cases e2 with
    | some err =>
      simp only [Prod.mk.injEq] at h
      obtain ⟨-, hx, -⟩ := h
      rw [← hx]; exact hst2
    | none =>
      dsimp only at h
      rcases h3 : V2.readInt32 st2 "SampleRate" lr2 with ⟨e3, st3, lr3⟩
      rw [h3] at h
      have hst3 : AFinv st3 := readInt32_AFinv_v2 st2 _ lr2 e3 st3 lr3 (by decide) h3 hst2
      cases e3 with
      | some err =>
        simp only [Prod.mk.injEq] at h
        obtain ⟨-, hx, -⟩ := h
        rw [← hx]; exact hst3
      | none =>
        dsimp only at h
        rcases h4 : V2.readInt32 st3 "ByteRate" lr3 with ⟨e4, st4, lr4⟩
        rw [h4] at h
        have hst4 : AFinv st4 := readInt32_AFinv_v2 st3 _ lr3 e4 st4 lr4 (by decide) h4 hst3
        cases e4 with
        | some err =>
          simp only [Prod.mk.injEq] at h
          obtain ⟨-, hx, -⟩ := h
          rw [← hx]; exact hst4
        | none =>
          dsimp only at h
          rcases h5 : V2.readInt16 st4 "BlockAlign" lr4 with ⟨e5, st5, lr5⟩
          rw [h5] at h
          have hst5 : AFinv st5 := readInt16_AFinv_v2 st4 _ lr4 e5 st5 lr5 (by decide) h5 hst4
          cases e5 with
          | some err =>
            simp only [Prod.mk.injEq] at h
            obtain ⟨-, hx, -⟩ := h
            rw [← hx]; exact hst5
          | none =>
            dsimp only at h
            exact readInt16_AFinv_v2 st5 _ lr5 e st' lr' (by decide) h hst5

theorem readSubchunks_AFinv_v2 (st : Store) (r : Rdr) (e : Option Err) (st' : Store)
    (r' : Rdr) (h : V2.readSubchunks st r = (e, st', r')) (hst : AFinv st) : AFinv st' := by
  unfold V2.readSubchunks at h
  rcases hc : V2.readChunk r with ⟨res, r1⟩
  rw [hc] at h
  cases res with
  | error err =>
    simp only [Prod.mk.injEq] at h
    obtain ⟨-, h2, -⟩ := h
    rw [← h2]; exact hst
  | ok idlen =>
    obtain ⟨id, len⟩ := idlen
    dsimp only at h
    split at h
    · rcases hf : V2.readFormat st ⟨r1, len⟩ with ⟨e2, st2, lr2⟩
      rw [hf] at h
      simp only [Prod.mk.injEq] at h
      obtain ⟨-, h2, -⟩ := h
      rw [← h2]
      exact readFormat_AFinv_v2 st _ e2 st2 lr2 hf hst
    · split at h
      · rcases hcp : copyNDiscard len r1 with ⟨e2, r2⟩
        rw [hcp] at h
        simp only [Prod.mk.injEq] at h
        obtain ⟨-, h2, -⟩ := h
        rw [← h2]; exact hst
      · split at h
        · rcases hl : V2.readList ⟨r1, len⟩ with ⟨e2, lr2⟩
          rw [hl] at h
          simp only [Prod.mk.injEq] at h
          obtain ⟨-, h2, -⟩ := h
          rw [← h2]; exact hst
        · split at h
          · rcases hi : V2.readInfo ⟨r1, len⟩ with ⟨e2, lr2⟩
            rw [hi] at h
            simp only [Prod.mk.injEq] at h
            obtain ⟨-, h2, -⟩ := h
            rw [← h2]; exact hst
          · simp only [Prod.mk.injEq] at h
            obtain ⟨-, h2, -⟩ := h
            rw [← h2]; exact hst

theorem newWav_ok_AFinv_v2 (r : Rdr) (st : Store) (r' : Rdr)
    (h : V2.newWav r = (.ok st, r')) : AFinv st := by
  unfold V2.newWav at h
  rcases h1 : readFull 4 r with ⟨res1, r1⟩
  rw [h1] at h
  cases res1 with
  | error err => simp at h
  | ok bs =>
    dsimp only at h
    rcases h2 : V2.expectFourCC r1 WAVEb with ⟨res2, r2⟩
    rw [h2] at h
    cases res2 with
    | error err => simp at h
    | ok u =>
      dsimp only at h
      rcases h3 : V2.readSubchunks [] r2 with ⟨e3, st3, r3⟩
      rw [h3] at h
      cases e3 with
      | some err => simp at h
      | none =>
        simp only [Prod.mk.injEq, Except.ok.injEq] at h
        obtain ⟨hx, -⟩ := h
        rw [← hx]
        exact readSubchunks_AFinv_v2 [] r2 none st3 r3 h3 AFinv_nil

theorem readAudioFormat_AFinv_v1 (st : Store) (r : Rdr) (e : Option Err) (st' : Store)
    (r' : Rdr) (h : V1.readAudioFormat st r = (e, st', r')) (hst : AFinv st) : AFinv st' := by
  unfold V1.readAudioFormat at h
  rcases hf : readFull 2 r with ⟨res, r1⟩
  rw [hf] at h
  cases res with
  | error err =>
    simp only [Prod.mk.injEq] at h
    obtain ⟨-, h2, -⟩ := h
    rw [← h2]; exact hst
  | ok bs =>
    dsimp only at h
    split at h
    · rename_i hc
      simp only [Prod.mk.injEq] at h
      obtain ⟨-, h2, -⟩ := h
      rw [← h2, hc]
      rw [show toString ((1 : Int)) = "1" from rfl]
      exact AFinv_set_one st
    · simp only [Prod.mk.injEq] at h
      obtain ⟨-, h2, -⟩ := h
      rw [← h2]; exact hst

theorem readInt16_AFinv_v1 (st : Store) (p : String) (r : Rdr) (e : Option Err) (st' : Store)
    (r' : Rdr) (hp : p ≠ "AudioFormat")
    (h : V1.readInt16 st p r = (e, st', r')) (hst : AFinv st) : AFinv st' := by
  unfold V1.readInt16 at h
  rcases hf : readFull 2 r with ⟨res, r1⟩
  rw [hf] at h
  cases res with
  | error err =>
    simp only [Prod.mk.injEq] at h
    obtain ⟨-, h2, -⟩ := h
    rw [← h2]; exact hst
  | ok bs =>
    simp only [Prod.mk.injEq] at h
    obtain ⟨-, h2, -⟩ := h
    rw [← h2]
    exact AFinv_set_other st p _ hp hst

theorem readInt32_AFinv_v1 (st : Store) (p : String) (r : Rdr) (e : Option Err) (st' : Store)
    (r' : Rdr) (hp : p ≠ "AudioFormat")
    (h : V1.readInt32 st p r = (e, st', r')) (hst : AFinv st) : AFinv st' := by
  unfold V1.readInt32 at h
  rcases hf : readFull 4 r with ⟨res, r1⟩
  rw [hf] at h
  cases res with
  | error err =>
    simp only [Prod.mk.injEq] at h
    obtain ⟨-, h2, -⟩ := h
    rw [← h2]; exact hst
  | ok bs =>
    simp only [Prod.mk.injEq] at h
    obtain ⟨-, h2, -⟩ := h
    rw [← h2]
    exact AFinv_set_other st p _ hp hst

theorem readFormat_AFinv_v1 (st : Store) (r : Rdr) (e : Option Err) (st' : Store)
    (r' : Rdr) (h : V1.readFormat st r = (e, st', r')) (hst : AFinv st) : AFinv st' := by
  unfold V1.readFormat at h
  rcases h0 : V1.expectChunkID r FMTb with ⟨res0, r0⟩
  rw [h0] at h
  cases res0 with
  | error err =>
    simp only [Prod.mk.injEq] at h
    obtain ⟨-, h2, -⟩ := h
    rw [← h2]; exact hst
  | ok u =>
    dsimp only at h
    rcases hL : V1.readFormatLength r0 with ⟨eL, rL⟩
    rw [hL] at h
    cases eL with
    | some err =>
      simp only [Prod.mk.injEq] at h
      obtain ⟨-, h2, -⟩ := h
      rw [← h2]; exact hst
    | none =>
      dsimp only at h
      rcases h1 : V1.readAudioFormat st rL with ⟨e1, st1, r1⟩
      rw [h1] at h
      have hst1 : AFinv st1 := readAudioFormat_AFinv_v1 st rL e1 st1 r1 h1 hst
      cases e1 with
      | some err =>
        simp only [Prod.mk.injEq] at h
        obtain ⟨-, hx, -⟩ := h
        rw [← hx]; exact hst1
      | none =>
        dsimp only at h
        rcases h2 : V1.readInt16 st1 "NumChannels" r1 with ⟨e2, st2, r2⟩
        rw [h2] at h
        have hst2 : AFinv st2 := readInt16_AFinv_v1 st1 _ r1 e2 st2 r2 (by decide) h2 hst1
        cases e2 with
        | some err =>
          simp only [Prod.mk.injEq] at h
          obtain ⟨-, hx, -⟩ := h
          rw [← hx]; exact hst2
        | none =>
          dsimp only at h
          rcases h3 : V1.readInt32 st2 "SampleRate" r2 with ⟨e3, st3, r3⟩
          rw [h3] at h
          have hst3 : AFinv st3 := readInt32_AFinv_v1 st2 _ r2 e3 st3 r3 (by decide) h3 hst2
          cases e3 with
          | some err =>
            simp only [Prod.mk.injEq] at h
            obtain ⟨-, hx, -⟩ := h
            rw [← hx]; exact hst3
          | none =>
            dsimp only at h
            rcases h4 : V1.readInt32 st3 "ByteRate" r3 with ⟨e4, st4, r4⟩
            rw [h4] at h
            have hst4 : AFinv st4 := readInt32_AFinv_v1 st3 _ r3 e4 st4 r4 (by decide) h4 hst3
            cases e4 with
            | some err =>
              simp only [Prod.mk.injEq] at h
              obtain ⟨-, hx, -⟩ := h
              rw [← hx]; exact hst4
            | none =>
              dsimp only at h
              rcases h5 : V1.readInt16 st4 "BlockAlign" r4 with ⟨e5, st5, r5⟩
              rw [h5] at h
              have hst5 : AFinv st5 := readInt16_AFinv_v1 st4 _ r4 e5 st5 r5 (by decide) h5 hst4
              cases e5 with
              | some err =>
                simp only [Prod.mk.injEq] at h
                obtain ⟨-, hx, -⟩ := h
                rw [← hx]; exact hst5
              | none =>
                dsimp only at h
                exact readInt16_AFinv_v1 st5 _ r5 e st' r' (by decide) h hst5

theorem newWav_ok_AFinv_v1 (r : Rdr) (st : Store) (r' : Rdr)
    (h : V1.newWav r = (.ok st, r')) : AFinv st := by
  unfold V1.newWav at h
  rcases h1 : readFull 4 r with ⟨res1, r1⟩
  rw [h1] at h
  cases res1 with
  | error err => simp at h
  | ok bs =>
    dsimp only at h
    rcases h2 : V1.expectChunkID r1 WAVEb with ⟨res2, r2⟩
    rw [h2] at h
    cases res2 with
    | error err => simp at h
    | ok u =>
      dsimp only at h
      rcases h3 : V1.readFormat [] r2 with ⟨e3, st3, r3⟩
      rw [h3] at h
      cases e3 with
      | some err => simp at h
      | none =>
        simp only [Prod.mk.injEq, Except.ok.injEq] at h
        obtain ⟨hx, -⟩ := h
        rw [← hx]
        exact readFormat_AFinv_v1 [] r2 none st3 r3 h3 AFinv_nil

/-- C10: in every mapping produced by a successful parse (either
generation), if the key "AudioFormat" is present then its value is the
string "1": the decoder stores the field only after validating that the
decoded encoding tag equals 1. -/
theorem c10_audioformat_always_one :
    (∀ (r : Rdr) (st : Store) (r' : Rdr) (v : String),
      V2.New r = (.ok (some st), r') → storeGet st "AudioFormat" = some v → v = "1") ∧
    (∀ (r : Rdr) (st : Store) (r' : Rdr) (v : String),
      V1.NewGetter r = (.ok st, r') → storeGet st "AudioFormat" = some v → v = "1") := by
  constructor
  · intro r st r' v h hv
    have hAF : AFinv st := by
      unfold V2.New at h
      rcases hg : goRead 3 r with ⟨bs, e0, r1⟩
      rw [hg] at h
      cases e0 with
      | some err => simp at h
      | none =>
        dsimp only at h
        split at h
        · simp at h
        · split at h
          · rcases hid : newID3 r1 with ⟨resi, ri⟩
            rw [hid] at h
            unfold newID3 at hid
            cases resi with
            | error err => simp at h
            | ok sti =>
              exact absurd hid (by simp)
          · split at h
            · rcases hcr : V2.checkRIFFLastByte r1 bs with ⟨ec, r2⟩
              rw [hcr] at h
              cases ec with
              | some err => simp at h
              | none =>
                dsimp only at h
                rcases hw : V2.newWav r2 with ⟨resw, r3⟩
                rw [hw] at h
                cases resw with
                | error ew =>
                  dsimp only at h
                  split at h
                  · simp only [Prod.mk.injEq, Except.ok.injEq] at h
                    obtain ⟨hx, -⟩ := h
                    exact absurd hx (by simp)
                  · simp at h
                | ok stw =>
                  simp only [Prod.mk.injEq, Except.ok.injEq, Option.some.injEq] at h
                  obtain ⟨hx, -⟩ := h
                  rw [← hx]
                  exact newWav_ok_AFinv_v2 r2 stw r3 hw
            · simp at h
    rcases hAF with hn | h1
    · rw [hn] at hv
      exact Option.noConfusion hv
    · rw [h1] at hv
      exact (Option.some.inj hv).symm
  · intro r st r' v h hv
    have hAF : AFinv st := by
      unfold V1.NewGetter at h
      rcases hg : goRead 3 r with ⟨bs, e0, r1⟩
      rw [hg] at h
      cases e0 with
      | some err => simp at h
      | none =>
        dsimp only at h
        split at h
        · simp at h
        · split at h
          · unfold newID3 at h
            simp at h
          · split at h
            · rcases hg1 : goRead 1 r1 with ⟨bs1, e1, r2⟩
              rw [hg1] at h
              cases e1 with
              | some err => simp at h
              | none =>
                dsimp only at h
                split at h
                · simp at h
                · split at h
                  · simp at h
                  · exact newWav_ok_AFinv_v1 r2 st r' h
            · simp at h
    rcases hAF with hn | h1
    · rw [hn] at hv
      exact Option.noConfusion hv
    · rw [h1] at hv
      exact (Option.some.inj hv).symm

/-- Witness for C10 at the concrete minimal container. -/
theorem c10_audioformat_always_one_witness :
    V2.New ⟨RIFFb ++ [0, 0, 0, 0] ++ WAVEb ++ fmtChunk, 0⟩ =
      (.ok (some sixStore), ⟨RIFFb ++ [0, 0, 0, 0] ++ WAVEb ++ fmtChunk, 36⟩) ∧
    storeGet sixStore "AudioFormat" = some "1" ∧ ("1" : String) = "1" :=
  ⟨by rfl, by rfl,
   c10_audioformat_always_one.1 ⟨RIFFb ++ [0, 0, 0, 0] ++ WAVEb ++ fmtChunk, 0⟩ sixStore
     ⟨RIFFb ++ [0, 0, 0, 0] ++ WAVEb ++ fmtChunk, 36⟩ "1" (by rfl) (by rfl)⟩
